import Mathlib

/-!
Verification development for the weeBell_bluetooth firmware core
(gcore_pots_bt).  The definitions below are shallow embeddings of the C
sources: `pots_task.c` (hook / dial / ring / Caller-ID state machines),
`app_task.c` (call orchestrator), `audio_task.c` (audio circular
buffers) and `components/utility/international.c` (country profile
table).  Machine integers are modelled as `Nat`/`Int`; the DSP
primitives (spandsp tone synthesis, FSK/DTMF encoders) are external to
the embedding, exactly as they are external library calls in the code,
so Caller-ID messages are modelled as the sequence of
`adsi_add_field` calls the code makes.
-/

/-! ## Constants from pots_task.c -/

/-- State machine evaluation interval (ms), `POTS_EVAL_MSEC`. -/
def POTS_EVAL_MSEC : Nat := 10

/-- Make period to move from off-hook back to on-hook (ms). -/
def POTS_ON_HOOK_DETECT_MSEC : Nat := 500

/-- Maximum Break period of a rotary pulse (ms). -/
def POTS_ROT_BREAK_MSEC : Nat := 100

/-- Minimum Make period between digits (ms). -/
def POTS_ROT_MAKE_MSEC : Nat := 100

/-! ## Ring pulse timing (`_potsGetRingPulseCount`, pots_task.c 733-752)

The C function computes, from the country ring frequency (Hz), the
number of 10 ms evaluation cycles for the ON and OFF halves of one ring
pulse.  All divisions are C `int` divisions, i.e. `Nat` floor division
here (the table frequencies are positive). -/

/-- Embedding of `_potsGetRingPulseCount`.  `on_portion = true` returns
the ON half count, `false` the compensated OFF half count. -/
def potsGetRingPulseCount (freq : Nat) (on_portion : Bool) : Nat :=
  let ring_pulse_period_msec := 1000 / freq
  let ring_on_eval_counts := ring_pulse_period_msec / 2 / POTS_EVAL_MSEC
  if on_portion then
    ring_on_eval_counts
  else
    (ring_pulse_period_msec - ring_on_eval_counts * POTS_EVAL_MSEC) / POTS_EVAL_MSEC

/-! ## Country profile table (international.h / international.c)

Only the fields the verified state machines read are embedded: the
Caller-ID spec word and delays, the ring info, the off-hook timeout and
the rotary map.  The tone descriptors (`tone_set`, `sample_set`) are
floating-point DSP configuration consumed by the external spandsp tone
synthesiser and are not read by any of the verified logic. -/

/-- Caller-ID spec: low 4 bits select the format. -/
def INT_CID_TYPE_MASK : Nat := 0x000F

/-- CID disabled. -/
def INT_CID_TYPE_NONE : Nat := 0

/-- Bellcore FSK format. -/
def INT_CID_TYPE_BELLCORE_FSK : Nat := 1

/-- European FSK format. -/
def INT_CID_TYPE_ETSI_FSK : Nat := 2

/-- UK British Telecom format. -/
def INT_CID_TYPE_SIN227 : Nat := 3

/-- DTMF variant 1. -/
def INT_CID_TYPE_DTMF1 : Nat := 4

/-- DTMF variant 2. -/
def INT_CID_TYPE_DTMF2 : Nat := 5

/-- DTMF variant 3. -/
def INT_CID_TYPE_DTMF3 : Nat := 6

/-- DTMF variant 4. -/
def INT_CID_TYPE_DTMF4 : Nat := 7

/-- NTT Japanese format. -/
def INT_CID_TYPE_JCLIP : Nat := 8

/-- Singapore format. -/
def INT_CID_TYPE_ACLIP : Nat := 9

/-- CID before first ring flag. -/
def INT_CID_FLAG_BEFORE_RING : Nat := 0x8000

/-- Enable line reversal flag. -/
def INT_CID_FLAG_EN_LR : Nat := 0x4000

/-- Enable DT-AS (tone) alert flag. -/
def INT_CID_FLAG_EN_DT_AS : Nat := 0x2000

/-- Enable RP-AS (ring) alert flag. -/
def INT_CID_FLAG_EN_RP_AS : Nat := 0x1000

/-- Enable short preamble flag. -/
def INT_CID_FLAG_EN_SHORT_PRE : Nat := 0x0800

/-- Embedding of `cid_info_t`. -/
structure cid_info_t where
  cid_spec : Nat
  pre_msec : Nat
  post_msec : Nat
  rp_as_msec : Nat
deriving DecidableEq, Repr

/-- Embedding of `ring_info_t` (freq in Hz, cadence pairs in ms). -/
structure ring_info_t where
  freq : Nat
  num_cadence_pairs : Nat
  cadence_pairs : List Nat
deriving DecidableEq, Repr

/-- Embedding of `country_info_t` restricted to the fields read by the
verified state machines. -/
structure country_info_t where
  name : String
  cid : cid_info_t
  ring_info : ring_info_t
  off_hook_timeout : Nat
  rotary_map : List Nat
deriving DecidableEq, Repr

/-- NUM_COUNTRIES from international.c. -/
def NUM_COUNTRIES : Nat := 7

/-- Entry 0 of `country_info[]`: Australia. -/
def country_australia : country_info_t :=
  { name := "Australia"
  , cid := { cid_spec := INT_CID_TYPE_BELLCORE_FSK
           , pre_msec := 0, post_msec := 200, rp_as_msec := 0 }
  , ring_info := { freq := 25, num_cadence_pairs := 2
                 , cadence_pairs := [400, 200, 400, 2000] }
  , off_hook_timeout := 60000
  , rotary_map := [1, 2, 3, 4, 5, 6, 7, 8, 9, 0] }

/-- Entry 1 of `country_info[]`: Europe. -/
def country_europe : country_info_t :=
  { name := "Europe"
  , cid := { cid_spec := INT_CID_TYPE_ETSI_FSK + INT_CID_FLAG_EN_DT_AS +
                           INT_CID_FLAG_BEFORE_RING
           , pre_msec := 0, post_msec := 200, rp_as_msec := 0 }
  , ring_info := { freq := 25, num_cadence_pairs := 1
                 , cadence_pairs := [1000, 200, 0, 0] }
  , off_hook_timeout := 0
  , rotary_map := [1, 2, 3, 4, 5, 6, 7, 8, 9, 0] }

/-- Entry 2 of `country_info[]`: Germany pre-1979. -/
def country_germany : country_info_t :=
  { name := "Germany pre-1979"
  , cid := { cid_spec := INT_CID_TYPE_NONE
           , pre_msec := 0, post_msec := 0, rp_as_msec := 0 }
  , ring_info := { freq := 25, num_cadence_pairs := 1
                 , cadence_pairs := [1000, 200, 0, 0] }
  , off_hook_timeout := 0
  , rotary_map := [1, 2, 3, 4, 5, 6, 7, 8, 9, 0] }

/-- Entry 3 of `country_info[]`: India. -/
def country_india : country_info_t :=
  { name := "India"
  , cid := { cid_spec := INT_CID_TYPE_DTMF1 + INT_CID_FLAG_EN_LR +
                           INT_CID_FLAG_BEFORE_RING
           , pre_msec := 100, post_msec := 200, rp_as_msec := 0 }
  , ring_info := { freq := 25, num_cadence_pairs := 2
                 , cadence_pairs := [400, 200, 400, 2000] }
  , off_hook_timeout := 0
  , rotary_map := [1, 2, 3, 4, 5, 6, 7, 8, 9, 0] }

/-- Entry 4 of `country_info[]`: New Zealand with reverse rotary map. -/
def country_new_zealand : country_info_t :=
  { name := "New Zealand Rev"
  , cid := { cid_spec := INT_CID_TYPE_BELLCORE_FSK
           , pre_msec := 0, post_msec := 200, rp_as_msec := 0 }
  , ring_info := { freq := 25, num_cadence_pairs := 2
                 , cadence_pairs := [400, 200, 400, 200] }
  , off_hook_timeout := 0
  , rotary_map := [9, 8, 7, 6, 5, 4, 3, 2, 1, 0] }

/-- Entry 5 of `country_info[]`: United States. -/
def country_united_states : country_info_t :=
  { name := "United States"
  , cid := { cid_spec := INT_CID_TYPE_BELLCORE_FSK
           , pre_msec := 0, post_msec := 200, rp_as_msec := 0 }
  , ring_info := { freq := 20, num_cadence_pairs := 1
                 , cadence_pairs := [2000, 200, 0, 0] }
  , off_hook_timeout := 60000
  , rotary_map := [1, 2, 3, 4, 5, 6, 7, 8, 9, 0] }

/-- Entry 6 of `country_info[]`: United Kingdom. -/
def country_united_kingdom : country_info_t :=
  { name := "United Kingdom"
  , cid := { cid_spec := INT_CID_TYPE_SIN227 + INT_CID_FLAG_BEFORE_RING +
                           INT_CID_FLAG_EN_LR + INT_CID_FLAG_EN_DT_AS
           , pre_msec := 100, post_msec := 200, rp_as_msec := 0 }
  , ring_info := { freq := 25, num_cadence_pairs := 2
                 , cadence_pairs := [400, 200, 400, 200] }
  , off_hook_timeout := 60000
  , rotary_map := [1, 2, 3, 4, 5, 6, 7, 8, 9, 0] }

/-- The seven-entry `country_info[]` table from international.c,
alphabetized by name as in the source. -/
def country_info : List country_info_t :=
  [ country_australia, country_europe, country_germany, country_india
  , country_new_zealand, country_united_states, country_united_kingdom ]

/-- Embedding of `int_get_num_countries`. -/
def int_get_num_countries : Nat := NUM_COUNTRIES

/-- Embedding of `int_get_country_info`: returns `none` (NULL) for an
out-of-range index. -/
def int_get_country_info (n : Int) : Option country_info_t :=
  if n < 0 || (NUM_COUNTRIES : Int) ≤ n then none
  else country_info.get? n.toNat

/-- Embedding of the country-code fetch-and-clamp at `pots_task` start
(pots_task.c 226-230): an out-of-range persisted index is replaced by 0
(and written back to the settings store). -/
def potsTaskStartCountryCode (persisted : Nat) : Nat :=
  if persisted ≥ int_get_num_countries then 0 else persisted

/-- Embedding of the country lookup in the `POTS_NOTIFY_NEW_COUNTRY_MASK`
handler (pots_task.c 366-368): the persisted code is looked up with no
range check. -/
def potsNewCountryLookup (persisted : Nat) : Option country_info_t :=
  int_get_country_info persisted

/-! ### C1: ring pulse ON + OFF duration -/

/-- C1: for a ring frequency `freq > 0` the ON tick count is exactly
`floor((1000/freq)/2/10)`, and ON + OFF ticks cover the full pulse
period `1000/freq` ms to within one 10 ms tick, the shortfall being
absorbed entirely by the OFF portion, so it cannot compound across
pulses. -/
theorem ring_pulse_on_off_within_one_tick (freq : Nat) (hf : 0 < freq) :
    potsGetRingPulseCount freq true = 1000 / freq / 2 / 10 ∧
    (potsGetRingPulseCount freq true + potsGetRingPulseCount freq false) * 10 ≤
      1000 / freq ∧
    1000 / freq <
      (potsGetRingPulseCount freq true + potsGetRingPulseCount freq false) * 10 + 10 := by
  unfold potsGetRingPulseCount POTS_EVAL_MSEC
  simp only [Bool.false_eq_true, ite_true, ite_false]
  generalize (1000 / freq : Nat) = p
  refine ⟨trivial, ?_, ?_⟩ <;> omega

/-- Witness for C1 at the United States ring frequency (20 Hz). -/
theorem ring_pulse_on_off_within_one_tick_witness :
    0 < 20 ∧
    (potsGetRingPulseCount 20 true = 1000 / 20 / 2 / 10 ∧
     (potsGetRingPulseCount 20 true + potsGetRingPulseCount 20 false) * 10 ≤ 1000 / 20 ∧
     1000 / 20 < (potsGetRingPulseCount 20 true + potsGetRingPulseCount 20 false) * 10 + 10) :=
  ⟨by decide, ring_pulse_on_off_within_one_tick 20 (by decide)⟩

/-! ## Rotary/DTMF dial decode (`_potsEvalDialer`, pots_task.c 1044-1108)

One call models one 10 ms evaluation cycle.  Inputs: `potsOnHook` is
`pots_state == ON_HOOK` of the hook state machine, `hookChange` is the
debounced hook transition flag from `_potsEvalHook`, and `curOffHook`
is the debounced level `pots_cur_off_hook`.  The decoded digit is the
character code `'0' + rotary_map[pulse_count-1]` stored in
`pots_dial_cur_digit`. -/

/-- Dial decode states (`pots_dial_stateT`). -/
inductive dial_state_t
  | DIAL_IDLE
  | DIAL_BREAK
  | DIAL_MAKE
deriving DecidableEq, Repr

/-- Dialer variables of pots_task.c (`pots_dial_*`).  `last_dtmf` is the
character code of `pots_dial_last_dtmf_digit`; 32 is the space
character meaning "no pending DTMF digit". -/
structure dialer_t where
  st : dial_state_t
  period_count : Nat
  pulse_count : Nat
  cur_digit : Nat
  last_dtmf : Nat
deriving DecidableEq, Repr

/-- Initial dialer state (static initializers of pots_task.c). -/
def dialerInit : dialer_t :=
  { st := dial_state_t.DIAL_IDLE, period_count := 0, pulse_count := 0
  , cur_digit := 0, last_dtmf := 32 }

/-- Embedding of `_potsEvalDialer`.  Returns the updated dialer state and
the `digit_dialed_detected` flag. -/
def potsEvalDialer (c : country_info_t) (potsOnHook hookChange curOffHook : Bool)
    (d : dialer_t) : dialer_t × Bool :=
  match d.st with
  | dial_state_t.DIAL_IDLE =>
    if !potsOnHook then
      if hookChange && !curOffHook then
        ({ d with st := dial_state_t.DIAL_BREAK, pulse_count := 0, period_count := 0 }, false)
      else if d.last_dtmf != 32 then
        ({ d with cur_digit := d.last_dtmf, last_dtmf := 32 }, true)
      else
        (d, false)
    else
      (d, false)
  | dial_state_t.DIAL_BREAK =>
    let pc := d.period_count + 1
    if pc > POTS_ROT_BREAK_MSEC / POTS_EVAL_MSEC then
      ({ d with period_count := pc, st := dial_state_t.DIAL_IDLE }, false)
    else if hookChange && curOffHook then
      ({ d with pulse_count := if d.pulse_count < 10 then d.pulse_count + 1 else d.pulse_count
              , st := dial_state_t.DIAL_MAKE, period_count := 0 }, false)
    else
      ({ d with period_count := pc }, false)
  | dial_state_t.DIAL_MAKE =>
    let pc := d.period_count + 1
    if pc > POTS_ROT_MAKE_MSEC / POTS_EVAL_MSEC then
      let pulses := if d.pulse_count > 10 then 10 else d.pulse_count
      ({ d with period_count := pc, pulse_count := pulses
              , cur_digit := 48 + c.rotary_map.getD (pulses - 1) 0
              , st := dial_state_t.DIAL_IDLE }, true)
    else if hookChange && !curOffHook then
      ({ d with st := dial_state_t.DIAL_BREAK, period_count := 0 }, false)
    else
      ({ d with period_count := pc }, false)

/-- One evaluation input of the dialer: on-hook flag, hook change flag,
debounced hook level. -/
structure dial_input_t where
  potsOnHook : Bool
  hookChange : Bool
  curOffHook : Bool
deriving DecidableEq, Repr

/-- Running the dialer over a sequence of evaluation cycles. -/
def runDialer (c : country_info_t) (d : dialer_t) : List dial_input_t → dialer_t
  | [] => d
  | inp :: rest =>
      runDialer c (potsEvalDialer c inp.potsOnHook inp.hookChange inp.curOffHook d).1 rest

/-- Invariant of the dialer: the accumulated pulse count never exceeds
10, and in the Make state at least one pulse has been counted. -/
def DialerInv (d : dialer_t) : Prop :=
  d.pulse_count ≤ 10 ∧ (d.st = dial_state_t.DIAL_MAKE → 1 ≤ d.pulse_count)

/-- The dialer invariant holds initially. -/
theorem dialerInv_init : DialerInv dialerInit := by
  constructor <;> simp [dialerInit, DialerInv]

/-- One evaluation cycle preserves the dialer invariant. -/
theorem dialerInv_step (c : country_info_t) (oh hc coh : Bool) (d : dialer_t)
    (h : DialerInv d) :
    DialerInv (potsEvalDialer c oh hc coh d).1 := by
  obtain ⟨h1, h2⟩ := h
  unfold potsEvalDialer
  cases hst : d.st <;>
    simp only [DialerInv, POTS_ROT_BREAK_MSEC, POTS_ROT_MAKE_MSEC, POTS_EVAL_MSEC] <;>
    split <;> (try split) <;> (try split) <;>
    simp_all <;> omega

/-- Any run from an invariant-satisfying state keeps the invariant. -/
theorem dialerInv_run (c : country_info_t) (d : dialer_t) (inputs : List dial_input_t)
    (h : DialerInv d) : DialerInv (runDialer c d inputs) := by
  induction inputs generalizing d with
  | nil => exact h
  | cons inp rest ih =>
      exact ih _ (dialerInv_step c inp.potsOnHook inp.hookChange inp.curOffHook d h)

/-- Finalizing a digit by the Make timeout: with the Make timer already
at the window boundary, one more evaluation converts the accumulated
pulse count (already ≤ 10) through the rotary map. -/
theorem dial_make_timeout (c : country_info_t) (oh hcg coh : Bool) (n dg dt : Nat)
    (h10 : n ≤ 10) :
    potsEvalDialer c oh hcg coh
        ⟨dial_state_t.DIAL_MAKE, POTS_ROT_MAKE_MSEC / POTS_EVAL_MSEC, n, dg, dt⟩ =
      (⟨dial_state_t.DIAL_IDLE, POTS_ROT_MAKE_MSEC / POTS_EVAL_MSEC + 1, n,
        48 + c.rotary_map.getD (n - 1) 0, dt⟩, true) := by
  have hng : ¬ (n > 10) := by omega
  simp [potsEvalDialer, POTS_ROT_MAKE_MSEC, POTS_EVAL_MSEC, hng]

/-- C5: for every pulse count n in 1..10 finalized by the Make timeout,
the decoded digit character is `'0' + rotary_map[n-1]` of the active
country profile; in particular for the reverse-map New Zealand profile
n pulses decode to digit 10-n (n in 1..9) and 10 pulses decode to 0. -/
theorem rotary_decode_matches_map (n : Nat) (h1 : 1 ≤ n) (h10 : n ≤ 10)
    (c : country_info_t) (hc : c ∈ country_info) (oh hcg coh : Bool) :
    (potsEvalDialer c oh hcg coh
        ⟨dial_state_t.DIAL_MAKE, POTS_ROT_MAKE_MSEC / POTS_EVAL_MSEC, n, 48, 32⟩).2 = true ∧
    (potsEvalDialer c oh hcg coh
        ⟨dial_state_t.DIAL_MAKE, POTS_ROT_MAKE_MSEC / POTS_EVAL_MSEC, n, 48, 32⟩).1.cur_digit =
      48 + c.rotary_map.getD (n - 1) 0 ∧
    (c = country_new_zealand →
      (potsEvalDialer c oh hcg coh
          ⟨dial_state_t.DIAL_MAKE, POTS_ROT_MAKE_MSEC / POTS_EVAL_MSEC, n, 48, 32⟩).1.cur_digit =
        48 + (if n = 10 then 0 else 10 - n)) := by
  rw [dial_make_timeout c oh hcg coh n 48 32 h10]
  refine ⟨rfl, rfl, ?_⟩
  rintro rfl
  simp only [country_new_zealand]
  interval_cases n <;> decide

/-- Witness for C5: 3 pulses on the New Zealand reverse map decode to
digit 7 (character code 48 + 7). -/
theorem rotary_decode_matches_map_witness :
    1 ≤ 3 ∧ 3 ≤ 10 ∧ country_new_zealand ∈ country_info ∧
    ((potsEvalDialer country_new_zealand false false false
        ⟨dial_state_t.DIAL_MAKE, POTS_ROT_MAKE_MSEC / POTS_EVAL_MSEC, 3, 48, 32⟩).2 = true ∧
     (potsEvalDialer country_new_zealand false false false
        ⟨dial_state_t.DIAL_MAKE, POTS_ROT_MAKE_MSEC / POTS_EVAL_MSEC, 3, 48, 32⟩).1.cur_digit =
       48 + country_new_zealand.rotary_map.getD 2 0 ∧
     (country_new_zealand = country_new_zealand →
      (potsEvalDialer country_new_zealand false false false
          ⟨dial_state_t.DIAL_MAKE, POTS_ROT_MAKE_MSEC / POTS_EVAL_MSEC, 3, 48, 32⟩).1.cur_digit =
        48 + (if 3 = 10 then 0 else 10 - 3))) :=
  ⟨by decide, by decide, by decide,
   rotary_decode_matches_map 3 (by decide) (by decide) country_new_zealand
     (by decide) false false false⟩

/-- Pulse-count clamping is preserved by one evaluation cycle: only the
Break state increments the count and only while it is below 10. -/
theorem dialer_pulse_le_step (c : country_info_t) (oh hcg coh : Bool) (d : dialer_t)
    (h : d.pulse_count ≤ 10) :
    (potsEvalDialer c oh hcg coh d).1.pulse_count ≤ 10 := by
  unfold potsEvalDialer
  cases hst : d.st <;>
    simp only [POTS_ROT_BREAK_MSEC, POTS_ROT_MAKE_MSEC, POTS_EVAL_MSEC] <;>
    split <;> (try split) <;> (try split) <;> simp_all <;> omega

/-- C10: the rotary pulse count can never exceed 10 - it holds in every
state reachable from the initial dialer state, the Break state ignores
pulses once the count is 10 (so a dial of more than 10 pulses finalizes
exactly like a 10-pulse dial), and at every Make-timeout finalization
from an invariant state the count is in 1..10, making the rotary-map
index `pulse_count - 1` fall within 0..9. -/
theorem rotary_pulse_count_clamped :
    (∀ (c : country_info_t) (inputs : List dial_input_t),
      DialerInv (runDialer c dialerInit inputs)) ∧
    (∀ (c : country_info_t) (oh hcg coh : Bool) (d : dialer_t),
      d.pulse_count ≤ 10 → (potsEvalDialer c oh hcg coh d).1.pulse_count ≤ 10) ∧
    (∀ (c : country_info_t) (oh : Bool) (d : dialer_t),
      d.st = dial_state_t.DIAL_BREAK → d.pulse_count = 10 →
      d.period_count + 1 ≤ POTS_ROT_BREAK_MSEC / POTS_EVAL_MSEC →
      (potsEvalDialer c oh true true d).1.pulse_count = 10 ∧
      (potsEvalDialer c oh true true d).1.st = dial_state_t.DIAL_MAKE) ∧
    (∀ (c : country_info_t) (oh hcg coh : Bool) (d : dialer_t),
      DialerInv d → d.st = dial_state_t.DIAL_MAKE →
      d.period_count + 1 > POTS_ROT_MAKE_MSEC / POTS_EVAL_MSEC →
      d.pulse_count - 1 < 10 ∧ 1 ≤ d.pulse_count ∧
      (potsEvalDialer c oh hcg coh d).1.cur_digit =
        48 + c.rotary_map.getD (d.pulse_count - 1) 0) := by
  refine ⟨fun c inputs => dialerInv_run c dialerInit inputs dialerInv_init,
          dialer_pulse_le_step, ?_, ?_⟩
  · intro c oh d hst hpc hper
    unfold potsEvalDialer
    rw [hst]
    simp only [POTS_ROT_BREAK_MSEC, POTS_EVAL_MSEC] at hper ⊢
    rw [if_neg (by omega)]
    simp [hpc]
  · intro c oh hcg coh d hinv hst hper
    obtain ⟨h1, h2⟩ := hinv
    have hp1 : 1 ≤ d.pulse_count := h2 hst
    refine ⟨by omega, hp1, ?_⟩
    unfold potsEvalDialer
    rw [hst]
    simp only [POTS_ROT_MAKE_MSEC, POTS_EVAL_MSEC] at hper ⊢
    rw [if_pos (by omega)]
    have hng : ¬ (d.pulse_count > 10) := by omega
    simp [hng]

/-- Witness for C10: a Break-state dialer that already counted 10
pulses ignores an 11th pulse, and a Make-timeout at count 10 reads map
index 9. -/
theorem rotary_pulse_count_clamped_witness :
    DialerInv (runDialer country_australia dialerInit
      [⟨false, true, false⟩, ⟨false, true, true⟩]) ∧
    ((⟨dial_state_t.DIAL_BREAK, 0, 10, 0, 32⟩ : dialer_t).st = dial_state_t.DIAL_BREAK ∧
     (potsEvalDialer country_australia false true true
        ⟨dial_state_t.DIAL_BREAK, 0, 10, 0, 32⟩).1.pulse_count = 10) ∧
    (DialerInv (⟨dial_state_t.DIAL_MAKE, 10, 10, 0, 32⟩ : dialer_t) ∧
     (potsEvalDialer country_australia false false false
        ⟨dial_state_t.DIAL_MAKE, 10, 10, 0, 32⟩).1.cur_digit =
       48 + country_australia.rotary_map.getD 9 0) :=
  ⟨rotary_pulse_count_clamped.1 country_australia _,
   ⟨rfl, (rotary_pulse_count_clamped.2.2.1 country_australia false
      ⟨dial_state_t.DIAL_BREAK, 0, 10, 0, 32⟩ rfl rfl (by decide)).1⟩,
   ⟨⟨by decide, fun _ => by decide⟩,
    (rotary_pulse_count_clamped.2.2.2 country_australia false false false
      ⟨dial_state_t.DIAL_MAKE, 10, 10, 0, 32⟩ ⟨by decide, fun _ => by decide⟩ rfl
      (by decide)).2.2⟩⟩

/-- Every in-range index yields a table entry. -/
theorem int_get_country_info_in_range (k : Nat) (hk : k < NUM_COUNTRIES) :
    (int_get_country_info k).isSome = true := by
  have h7 : k < 7 := hk
  interval_cases k <;> decide

/-- Counterexample for C9: the new-country notification handler
(pots_task.c 366-368) looks the persisted index up with no range check,
so the persisted value 7 - a representable `uint8_t` value that is out
of range for the 7-entry table - yields a NULL profile pointer there.
Only the lookup at task start is clamped. -/
theorem country_lookup_unclamped_on_new_country :
    ¬ (7 < NUM_COUNTRIES) ∧ potsNewCountryLookup 7 = none := by
  refine ⟨by decide, ?_⟩
  decide

/-- C9 (amended): the task-start lookup clamps an out-of-range persisted
index to 0 before use and therefore always yields a table entry; the
new-country notification lookup yields a table entry whenever the
persisted index is within range (which is all the GUI setter, the only
writer, ever stores). -/
theorem country_profile_lookup_validity :
    (∀ p : Nat, (int_get_country_info (potsTaskStartCountryCode p)).isSome = true) ∧
    (∀ p : Nat, p < NUM_COUNTRIES → (potsNewCountryLookup p).isSome = true) := by
  constructor
  · intro p
    unfold potsTaskStartCountryCode int_get_num_countries
    split
    · exact int_get_country_info_in_range 0 (by decide)
    · rename_i hlt
      exact int_get_country_info_in_range p (by omega)
  · intro p hp
    exact int_get_country_info_in_range p hp

/-- Witness for C9 (amended): persisted value 200 is clamped at task
start and still resolves to a profile; persisted value 3 resolves on the
notification path. -/
theorem country_profile_lookup_validity_witness :
    (int_get_country_info (potsTaskStartCountryCode 200)).isSome = true ∧
    (3 < NUM_COUNTRIES ∧ (potsNewCountryLookup 3).isSome = true) :=
  ⟨country_profile_lookup_validity.1 200,
   by decide, country_profile_lookup_validity.2 3 (by decide)⟩

/-! ## Audio circular buffers (audio_task.c)

`rx_buf`/`tx_buf` are `BUF_SAMPLES`-entry circular buffers of 16-bit
samples with a put index, a pop index and a valid count (`int` in C,
`Int` here so that non-negativity is a theorem, not a typing artifact).
`circPutSample`/`circPopSample` are the loop bodies of the C copy
loops, including the index wrap.  `audioPutTx` (audio_task.c 564-583)
and `audioPutRx` (the buffer-loading tail of `_audioPutRx`,
656-717) append samples and wrap the count modulo the capacity on
overflow; `audioGetRx` (537-561) copies `min(len, count)` samples,
zero-fills the caller buffer to `len` and returns the copied count;
`audioGetTx` (588-653) consumes `2*len` (16 k mode) or `len` samples.
The DSP processing around the copies (resampling, echo cancel, mute)
transforms sample values only and is external to the buffer state, so
the put operations take the already-processed sample list. -/


/-- Codec sample rate (audio_task.c). -/
def AUDIO_SAMPLE_RATE : Nat := 8000
/-- Samples moved to/from the I2S driver per 10 ms transfer. -/
def I2S_SAMPLES : Nat := 10 * AUDIO_SAMPLE_RATE / 1000
/-- Capacity of each audio circular buffer (640 samples). -/
def BUF_SAMPLES : Nat := 8 * I2S_SAMPLES

/-- One audio circular buffer: storage, put index, pop index, valid
count. -/
structure circ_buf_t where
  data : Nat → Int
  put : Nat
  pop : Nat
  count : Int

/-- Buffer state after `_audioInitBuffers` (indices and count zeroed;
the static C arrays start zero-filled). -/
def audioInitBuf : circ_buf_t := { data := fun _ => 0, put := 0, pop := 0, count := 0 }

/-- Body of the C put copy loop: store at the put index, advance and
wrap. -/
def circPutSample (b : circ_buf_t) (v : Int) : circ_buf_t :=
  let b' := { b with data := Function.update b.data b.put v, put := b.put + 1 }
  if b'.put ≥ BUF_SAMPLES then { b' with put := 0 } else b'

/-- Embedding of `_audioPutTx`: copy the samples, add the length to the
count and wrap the count modulo the capacity when it exceeds it. -/
def audioPutTx (b : circ_buf_t) (buf : List Int) : circ_buf_t :=
  let b' := buf.foldl circPutSample b
  let c := b'.count + buf.length
  if c > (BUF_SAMPLES : Int) then { b' with count := c % BUF_SAMPLES }
  else { b' with count := c }

/-- Embedding of the buffer-loading tail of `_audioPutRx` (the processed
samples of `resample_buf` are the argument list). -/
def audioPutRx (b : circ_buf_t) (buf : List Int) : circ_buf_t :=
  let b' := buf.foldl circPutSample b
  let c := b'.count + buf.length
  if c > (BUF_SAMPLES : Int) then { b' with count := c % BUF_SAMPLES }
  else { b' with count := c }

/-- Body of the C get copy loop: read at the pop index, advance and
wrap. -/
def circPopSample (b : circ_buf_t) : circ_buf_t × Int :=
  let v := b.data b.pop
  let b' := { b with pop := b.pop + 1 }
  (if b'.pop ≥ BUF_SAMPLES then { b' with pop := 0 } else b', v)

/-- Running the pop loop `k` times, collecting the copied samples. -/
def circPopList : Nat → circ_buf_t → circ_buf_t × List Int
  | 0, b => (b, [])
  | k+1, b =>
    let r := circPopSample b
    let rest := circPopList k r.1
    (rest.1, r.2 :: rest.2)

/-- Embedding of `_audioGetRx`: copy `min(len, count)` samples, zero-fill
the rest of the caller buffer and return the copied count. -/
def audioGetRx (b : circ_buf_t) (len : Nat) : circ_buf_t × List Int × Int :=
  let read_len : Int := if (len : Int) > b.count then b.count else (len : Int)
  let r := circPopList read_len.toNat b
  ({ r.1 with count := r.1.count - read_len },
   r.2 ++ List.replicate (len - read_len.toNat) 0, read_len)

/-- Embedding of the buffer-consuming head of `_audioGetTx`
(`2*len` samples are consumed in 16 k mode). -/
def audioGetTx (sr16 : Bool) (b : circ_buf_t) (len : Nat) : circ_buf_t × List Int :=
  let want : Nat := if sr16 then 2 * len else len
  let read_len : Int := if (want : Int) > b.count then b.count else (want : Int)
  let r := circPopList read_len.toNat b
  ({ r.1 with count := r.1.count - read_len }, r.2)

/-- Embedding of `audioGetToneRx` (audio_task.c 326-334): delegates to
`_audioGetRx` only when audio is enabled and muxed to the tone path,
otherwise zero-fills the caller buffer and returns `len`. -/
def audioGetToneRx (audio_enabled audio_mux_to_tone : Bool) (b : circ_buf_t)
    (len : Nat) : circ_buf_t × List Int × Int :=
  if audio_enabled && audio_mux_to_tone then audioGetRx b len
  else (b, List.replicate len 0, (len : Int))

/-- The put copy loop never touches the valid count. -/
theorem foldl_circPutSample_count (xs : List Int) (b : circ_buf_t) :
    (xs.foldl circPutSample b).count = b.count := by
  induction xs generalizing b with
  | nil => rfl
  | cons x rest ih =>
      rw [List.foldl_cons, ih]
      unfold circPutSample
      dsimp only
      split <;> rfl

/-- The get copy loop never touches the valid count. -/
theorem circPopList_count (k : Nat) (b : circ_buf_t) :
    (circPopList k b).1.count = b.count := by
  induction k generalizing b with
  | zero => rfl
  | succ k ih =>
      rw [circPopList, ih]
      unfold circPopSample
      dsimp only
      split <;> rfl

/-- The get copy loop returns exactly `k` samples. -/
theorem circPopList_length (k : Nat) (b : circ_buf_t) :
    (circPopList k b).2.length = k := by
  induction k generalizing b with
  | zero => rfl
  | succ k ih => simp [circPopList, ih]

/-- One pop step: wrapped index arithmetic and untouched storage. -/
theorem circPopSample_pop_lt (b : circ_buf_t) (h : b.pop < BUF_SAMPLES) :
    (circPopSample b).1.pop = (b.pop + 1) % BUF_SAMPLES ∧
    (circPopSample b).1.pop < BUF_SAMPLES ∧
    (circPopSample b).1.data = b.data ∧
    (circPopSample b).2 = b.data b.pop := by
  have hbuf : BUF_SAMPLES = 640 := by decide
  by_cases hge : b.pop + 1 ≥ BUF_SAMPLES
  · have h1 : b.pop + 1 = BUF_SAMPLES := by omega
    simp [circPopSample, hge, h1, Nat.mod_self]
    omega
  · have h2 : (b.pop + 1) % BUF_SAMPLES = b.pop + 1 := Nat.mod_eq_of_lt (by omega)
    simp [circPopSample, hge, h2]
    omega

/-- The samples copied by the pop loop are the buffer contents starting
at the pop index, with circular wrap. -/
theorem circPopList_getD (k : Nat) (b : circ_buf_t) (h : b.pop < BUF_SAMPLES)
    (i : Nat) (hi : i < k) :
    (circPopList k b).2.getD i 0 = b.data ((b.pop + i) % BUF_SAMPLES) := by
  induction k generalizing b i with
  | zero => omega
  | succ k ih =>
      obtain ⟨hpop, hlt, hdata, hv⟩ := circPopSample_pop_lt b h
      cases i with
      | zero =>
          simp [circPopList, hv, Nat.mod_eq_of_lt h]
      | succ i =>
          have := ih (circPopSample b).1 hlt i (by omega)
          simp only [circPopList, List.getD_cons_succ]
          rw [this, hdata, hpop, Nat.mod_add_mod]
          have harith : b.pop + 1 + i = b.pop + (i + 1) := by omega
          rw [harith]

/-- The get/put operations the two tasks perform on the audio buffers. -/
inductive audio_op
  | opPutTx (xs : List Int)
  | opGetTx (sr16 : Bool) (len : Nat)
  | opPutRx (xs : List Int)
  | opGetRx (len : Nat)

/-- The pair of audio circular buffers owned by audio_task. -/
structure audio_bufs_t where
  rx : circ_buf_t
  tx : circ_buf_t

/-- Both buffers as initialized at task start. -/
def audioInitState : audio_bufs_t := { rx := audioInitBuf, tx := audioInitBuf }

/-- Effect of one get/put call on the buffer pair. -/
def audioApplyOp (s : audio_bufs_t) : audio_op → audio_bufs_t
  | audio_op.opPutTx xs => { s with tx := audioPutTx s.tx xs }
  | audio_op.opGetTx sr16 len => { s with tx := (audioGetTx sr16 s.tx len).1 }
  | audio_op.opPutRx xs => { s with rx := audioPutRx s.rx xs }
  | audio_op.opGetRx len => { s with rx := (audioGetRx s.rx len).1 }

/-- Effect of a sequence of get/put calls. -/
def audioApplyOps (s : audio_bufs_t) (ops : List audio_op) : audio_bufs_t :=
  ops.foldl audioApplyOp s

/-- The audio buffer invariant: `0 <= valid count <= capacity`. -/
def CountInv (b : circ_buf_t) : Prop := 0 ≤ b.count ∧ b.count ≤ (BUF_SAMPLES : Int)

/-- Count after `_audioPutTx`: sum, wrapped modulo capacity on
overflow. -/
theorem audioPutTx_count (b : circ_buf_t) (xs : List Int) :
    (audioPutTx b xs).count =
      if b.count + xs.length > (BUF_SAMPLES : Int) then (b.count + xs.length) % BUF_SAMPLES
      else b.count + xs.length := by
  unfold audioPutTx
  dsimp only
  rw [foldl_circPutSample_count]
  split <;> rfl

/-- Count after `_audioPutRx`: sum, wrapped modulo capacity on
overflow. -/
theorem audioPutRx_count (b : circ_buf_t) (xs : List Int) :
    (audioPutRx b xs).count =
      if b.count + xs.length > (BUF_SAMPLES : Int) then (b.count + xs.length) % BUF_SAMPLES
      else b.count + xs.length := by
  unfold audioPutRx
  dsimp only
  rw [foldl_circPutSample_count]
  split <;> rfl

/-- The put-side count update preserves the invariant. -/
theorem count_wrap_inv (c0 : Int) (n : Nat) (h0 : 0 ≤ c0) (h1 : c0 ≤ (BUF_SAMPLES : Int))
    (c : Int)
    (hc : c = if c0 + n > (BUF_SAMPLES : Int) then (c0 + n) % BUF_SAMPLES else c0 + n) :
    0 ≤ c ∧ c ≤ (BUF_SAMPLES : Int) := by
  have hb : (BUF_SAMPLES : Int) = 640 := by decide
  rw [hb] at hc h1 ⊢
  split at hc
  · have hnn : 0 ≤ (c0 + n) % 640 := Int.emod_nonneg _ (by decide)
    have hlt : (c0 + n) % 640 < 640 := Int.emod_lt_of_pos _ (by decide)
    omega
  · omega

/-- `_audioPutTx` preserves the count invariant. -/
theorem audioPutTx_count_inv (b : circ_buf_t) (xs : List Int) (h : CountInv b) :
    CountInv (audioPutTx b xs) := by
  exact count_wrap_inv b.count xs.length h.1 h.2 _ (audioPutTx_count b xs)

/-- `_audioPutRx` preserves the count invariant. -/
theorem audioPutRx_count_inv (b : circ_buf_t) (xs : List Int) (h : CountInv b) :
    CountInv (audioPutRx b xs) := by
  exact count_wrap_inv b.count xs.length h.1 h.2 _ (audioPutRx_count b xs)

/-- Count after `_audioGetRx`: decremented by the copied count. -/
theorem audioGetRx_count (b : circ_buf_t) (len : Nat) :
    (audioGetRx b len).1.count =
      b.count - (if (len : Int) > b.count then b.count else (len : Int)) := by
  unfold audioGetRx
  dsimp only
  rw [circPopList_count]

/-- Count after `_audioGetTx`: decremented by the consumed count. -/
theorem audioGetTx_count (sr16 : Bool) (b : circ_buf_t) (len : Nat) :
    (audioGetTx sr16 b len).1.count =
      b.count -
        (if ((if sr16 then 2 * len else len : Nat) : Int) > b.count then b.count
         else ((if sr16 then 2 * len else len : Nat) : Int)) := by
  unfold audioGetTx
  dsimp only
  rw [circPopList_count]

/-- `_audioGetRx` preserves the count invariant. -/
theorem audioGetRx_count_inv (b : circ_buf_t) (len : Nat) (h : CountInv b) :
    CountInv (audioGetRx b len).1 := by
  obtain ⟨h0, h1⟩ := h
  have hc := audioGetRx_count b len
  constructor <;> rw [hc] <;> split <;> omega

/-- `_audioGetTx` preserves the count invariant. -/
theorem audioGetTx_count_inv (sr16 : Bool) (b : circ_buf_t) (len : Nat) (h : CountInv b) :
    CountInv (audioGetTx sr16 b len).1 := by
  obtain ⟨h0, h1⟩ := h
  have hc := audioGetTx_count sr16 b len
  constructor <;> rw [hc] <;> split <;> omega

/-- Every single get/put call preserves the invariant on both
buffers. -/
theorem audioApplyOp_inv (s : audio_bufs_t) (op : audio_op)
    (h : CountInv s.rx ∧ CountInv s.tx) :
    CountInv (audioApplyOp s op).rx ∧ CountInv (audioApplyOp s op).tx := by
  cases op with
  | opPutTx xs => exact ⟨h.1, audioPutTx_count_inv _ _ h.2⟩
  | opGetTx sr16 len => exact ⟨h.1, audioGetTx_count_inv _ _ _ h.2⟩
  | opPutRx xs => exact ⟨audioPutRx_count_inv _ _ h.1, h.2⟩
  | opGetRx len => exact ⟨audioGetRx_count_inv _ _ h.1, h.2⟩

/-- Every sequence of get/put calls preserves the invariant on both
buffers. -/
theorem audioApplyOps_inv (ops : List audio_op) (s : audio_bufs_t)
    (h : CountInv s.rx ∧ CountInv s.tx) :
    CountInv (audioApplyOps s ops).rx ∧ CountInv (audioApplyOps s ops).tx := by
  induction ops generalizing s with
  | nil => exact h
  | cons op rest ih => exact ih _ (audioApplyOp_inv s op h)

/-- Reading inside a zero-filled region yields zero. -/
theorem replicate_getD_zero (n i : Nat) (h : i < n) :
    (List.replicate n (0:Int)).getD i 1 = 0 := by
  rw [List.getD_eq_getElem?_getD, List.getElem?_replicate]
  simp [h]

/-- C7: starting from the initialized buffers, after any sequence of
get/put calls with any requested lengths both valid counts satisfy
`0 <= count <= BUF_SAMPLES`; and whenever a put overflows the capacity
the count wraps modulo the capacity (oldest data overwritten) instead
of exceeding the capacity or going negative. -/
theorem audio_buffer_count_invariant :
    (∀ ops : List audio_op,
       0 ≤ (audioApplyOps audioInitState ops).rx.count ∧
       (audioApplyOps audioInitState ops).rx.count ≤ (BUF_SAMPLES : Int) ∧
       0 ≤ (audioApplyOps audioInitState ops).tx.count ∧
       (audioApplyOps audioInitState ops).tx.count ≤ (BUF_SAMPLES : Int)) ∧
    (∀ (b : circ_buf_t) (xs : List Int),
       b.count + xs.length > (BUF_SAMPLES : Int) →
       (audioPutTx b xs).count = (b.count + xs.length) % BUF_SAMPLES ∧
       (audioPutRx b xs).count = (b.count + xs.length) % BUF_SAMPLES) := by
  constructor
  · intro ops
    have h := audioApplyOps_inv ops audioInitState
      ⟨⟨by decide, by decide⟩, ⟨by decide, by decide⟩⟩
    exact ⟨h.1.1, h.1.2, h.2.1, h.2.2⟩
  · intro b xs hover
    constructor
    · rw [audioPutTx_count, if_pos hover]
    · rw [audioPutRx_count, if_pos hover]

/-- A receive buffer holding 3 valid samples, used to exhibit the
bypass path of `audioGetToneRx`. -/
def audioCexBuf : circ_buf_t := { data := fun _ => 7, put := 3, pop := 0, count := 3 }

/-- Counterexample for C8: with audio disabled (or not muxed to the
tone path) `audioGetToneRx` does not return the number of samples
available in the buffer: with 3 samples available and `len = 5` it
returns 5 (all zeros) and leaves the buffer count untouched, whereas
the claim requires the return value `min(5, 3) = 3` in every pipeline
state. -/
theorem tone_rx_bypass_returns_len :
    (audioGetToneRx false false audioCexBuf 5).2.2 = 5 ∧
    min (5 : Int) audioCexBuf.count = 3 ∧ (5 : Int) ≠ 3 ∧
    (audioGetToneRx false false audioCexBuf 5).1.count = audioCexBuf.count := by
  refine ⟨rfl, by decide, by decide, rfl⟩

/-- C8 (amended): `_audioGetRx` copies `min(len, count)` samples from
the buffer starting at the pop index, zero-fills the caller buffer up
to `len`, returns the copied count (at most `len`) and decrements the
valid count accordingly; `audioGetToneRx` behaves identically exactly
when audio is enabled and muxed to the tone path, and otherwise
zero-fills all `len` entries and returns `len` without reading the
buffer. -/
theorem audio_get_rx_spec (b : circ_buf_t) (len : Nat)
    (hc : 0 ≤ b.count) (hp : b.pop < BUF_SAMPLES) :
    (audioGetRx b len).2.2 = min (len : Int) b.count ∧
    (audioGetRx b len).2.2 ≤ (len : Int) ∧
    (audioGetRx b len).2.1.length = len ∧
    (∀ i : Nat, (audioGetRx b len).2.2.toNat ≤ i → i < len →
       (audioGetRx b len).2.1.getD i 1 = 0) ∧
    (∀ i : Nat, i < (audioGetRx b len).2.2.toNat →
       (audioGetRx b len).2.1.getD i 0 = b.data ((b.pop + i) % BUF_SAMPLES)) ∧
    (audioGetRx b len).1.count = b.count - (audioGetRx b len).2.2 ∧
    (∀ en mux : Bool, (en && mux) = true →
       audioGetToneRx en mux b len = audioGetRx b len) ∧
    (∀ en mux : Bool, (en && mux) = false →
       audioGetToneRx en mux b len = (b, List.replicate len 0, (len : Int))) := by
  have hrl : (if (len : Int) > b.count then b.count else (len : Int)) = min (len : Int) b.count := by
    split <;> omega
  have hmin_nonneg : 0 ≤ min (len : Int) b.count := by omega
  have hmin_le : min (len : Int) b.count ≤ (len : Int) := by omega
  have htn : (min (len : Int) b.count).toNat ≤ len := by omega
  refine ⟨?_, ?_, ?_, ?_, ?_, ?_, ?_, ?_⟩
  · show (audioGetRx b len).2.2 = _
    unfold audioGetRx
    dsimp only
    exact hrl
  · unfold audioGetRx
    dsimp only
    rw [hrl]
    exact hmin_le
  · unfold audioGetRx
    dsimp only
    rw [hrl, List.length_append, circPopList_length, List.length_replicate]
    omega
  · intro i hlo hhi
    unfold audioGetRx at hlo ⊢
    dsimp only at hlo ⊢
    rw [hrl] at hlo ⊢
    rw [List.getD_append_right _ _ _ _ (by rw [circPopList_length]; exact hlo)]
    rw [circPopList_length]
    exact replicate_getD_zero _ _ (by omega)
  · intro i hi
    unfold audioGetRx at hi ⊢
    dsimp only at hi ⊢
    rw [hrl] at hi ⊢
    rw [List.getD_append _ _ _ _ (by rw [circPopList_length]; exact hi)]
    exact circPopList_getD _ b hp i hi
  · rw [audioGetRx_count]
    show _ = b.count - (audioGetRx b len).2.2
    unfold audioGetRx
    dsimp only
  · intro en mux hmx
    unfold audioGetToneRx
    rw [hmx]
    rfl
  · intro en mux hmx
    unfold audioGetToneRx
    rw [hmx]
    rfl

/-- A nearly full buffer (639 valid samples) used to exercise the
overflow wrap. -/
def audioWrapBuf : circ_buf_t := { data := fun _ => 0, put := 639, pop := 0, count := 639 }

/-- Witness for C7: the empty op sequence satisfies the invariant, and
putting 2 samples into a 639-sample-full buffer wraps the count to
(639 + 2) mod 640 = 1. -/
theorem audio_buffer_count_invariant_witness :
    (0 ≤ (audioApplyOps audioInitState []).rx.count ∧
     (audioApplyOps audioInitState []).rx.count ≤ (BUF_SAMPLES : Int) ∧
     0 ≤ (audioApplyOps audioInitState []).tx.count ∧
     (audioApplyOps audioInitState []).tx.count ≤ (BUF_SAMPLES : Int)) ∧
    (audioWrapBuf.count + (([1, 2] : List Int)).length > (BUF_SAMPLES : Int)) ∧
    ((audioPutTx audioWrapBuf [1, 2]).count =
       (audioWrapBuf.count + (([1, 2] : List Int)).length) % BUF_SAMPLES ∧
     (audioPutRx audioWrapBuf [1, 2]).count =
       (audioWrapBuf.count + (([1, 2] : List Int)).length) % BUF_SAMPLES) :=
  ⟨audio_buffer_count_invariant.1 [], by decide,
   audio_buffer_count_invariant.2 audioWrapBuf [1, 2] (by decide)⟩

/-- A receive buffer with 2 valid samples and the pop index near the
wrap point, used as the C8 witness input. -/
def audioSpecBuf : circ_buf_t := { data := fun i => (i : Int), put := 0, pop := 638, count := 2 }

/-- Witness for C8 (amended) at `audioSpecBuf` with `len = 4`. -/
theorem audio_get_rx_spec_witness :
    (0 : Int) ≤ audioSpecBuf.count ∧ audioSpecBuf.pop < BUF_SAMPLES ∧
    ((audioGetRx audioSpecBuf 4).2.2 = min ((4 : Nat) : Int) audioSpecBuf.count ∧
     (audioGetRx audioSpecBuf 4).2.2 ≤ ((4 : Nat) : Int) ∧
     (audioGetRx audioSpecBuf 4).2.1.length = 4 ∧
     (∀ i : Nat, (audioGetRx audioSpecBuf 4).2.2.toNat ≤ i → i < 4 →
        (audioGetRx audioSpecBuf 4).2.1.getD i 1 = 0) ∧
     (∀ i : Nat, i < (audioGetRx audioSpecBuf 4).2.2.toNat →
        (audioGetRx audioSpecBuf 4).2.1.getD i 0 =
          audioSpecBuf.data ((audioSpecBuf.pop + i) % BUF_SAMPLES)) ∧
     (audioGetRx audioSpecBuf 4).1.count = audioSpecBuf.count - (audioGetRx audioSpecBuf 4).2.2 ∧
     (∀ en mux : Bool, (en && mux) = true →
        audioGetToneRx en mux audioSpecBuf 4 = audioGetRx audioSpecBuf 4) ∧
     (∀ en mux : Bool, (en && mux) = false →
        audioGetToneRx en mux audioSpecBuf 4 =
          (audioSpecBuf, List.replicate 4 0, ((4 : Nat) : Int)))) :=
  ⟨by decide, by decide, audio_get_rx_spec audioSpecBuf 4 (by decide) (by decide)⟩

/-! ## Caller-ID message setup (`_potsSetupCID`, pots_task.c 865-1006)

The spandsp encoder (`adsi.c`) is an external DSP primitive; the code
configures it with a sequence of calls (`adsi_tx_send_alert_tone`,
`adsi_tx_set_preamble`, `adsi_add_field`).  The embedding records that
call sequence: `dt_as` is whether a DT-AS alert was requested,
`preamble_bits` is the mark-bit count passed to
`adsi_tx_set_preamble` (`none` when the encoder default is kept), and
`message` is the ordered `adsi_add_field` list, `none` exactly when the
C variable `len` stays -1 (no field call made) and `_potsSetupCID`
returns false.  When `app_get_cid_number` returns an empty string the C
code substitutes `UNKNOWN_CID_STRING` into its local buffer and clears
`valid_cid`; the buffer is only read on `valid_cid` paths, so the
embedding keys on the number string being empty. -/
/-- Field tags passed to `adsi_add_field` (spandsp adsi.h names);
`SDMF_FIELD0` is the literal field type 0 used for SDMF body fields. -/
inductive adsi_field_t
  | CLIP_MDMF_CALLERID
  | CLIP_CALLTYPE
  | CLIP_DATETIME
  | CLIP_CALLER_NUMBER
  | CLIP_ABSENCE1
  | CLIP_DTMF_C_TERMINATED
  | CLIP_DTMF_C_CALLER_NUMBER
  | CLIP_DTMF_C_ABSENCE
  | CLIP_DTMF_C_REDIRECT_NUMBER
  | CLIP_DTMF_HASH_TERMINATED
  | CLIP_DTMF_HASH_CALLER_NUMBER
  | CLIP_DTMF_HASH_ABSENCE
  | CLIP_DTMF_HASH_UNSPECIFIED
  | JCLIP_MDMF_CALLERID
  | JCLIP_DIALED_NUMBER
  | JCLIP_ABSENCE
  | ACLIP_MDMF_CALLERID
  | ACLIP_DATETIME
  | ACLIP_CALLER_NUMBER
  | ACLIP_NUMBER_ABSENCE
  | CLASS_SDMF_CALLERID
  | CLASS_MDMF_CALLERID
  | MCLASS_DATETIME
  | MCLASS_ABSENCE1
  | SDMF_FIELD0
deriving DecidableEq, Repr

/-- Placeholder written into the local number buffer when no number is
available (sys_common.h). -/
def UNKNOWN_CID_STRING : String := "Unknown"

/-- Result of `_potsSetupCID`: encoder configuration and the field
sequence of the message (or `none` when no message was built). -/
structure cid_setup_t where
  dt_as : Bool
  preamble_bits : Option Nat
  message : Option (List (adsi_field_t × String))
deriving DecidableEq, Repr

/-- Embedding of `_potsSetupCID`.  The switch on
`cid_spec & INT_CID_TYPE_MASK` is transcribed as an if chain; the
default case covers Bellcore FSK (and disabled/reserved values). -/
def potsSetupCID (cid_spec : Nat) (num time : String) : cid_setup_t :=
  let valid_cid : Bool := num.length != 0
  let t := cid_spec &&& INT_CID_TYPE_MASK
  let dt_as : Bool := cid_spec &&& INT_CID_FLAG_EN_DT_AS != 0
  let preamble : Option Nat :=
    if t = INT_CID_TYPE_BELLCORE_FSK then some 156
    else if cid_spec &&& INT_CID_FLAG_EN_SHORT_PRE = 0 then some 180
    else none
  let fields : List (adsi_field_t × String) :=
    if t = INT_CID_TYPE_ETSI_FSK ∨ t = INT_CID_TYPE_SIN227 then
      [(adsi_field_t.CLIP_MDMF_CALLERID, ""), (adsi_field_t.CLIP_CALLTYPE, "\x81"),
       (adsi_field_t.CLIP_DATETIME, time)] ++
      (if valid_cid then [(adsi_field_t.CLIP_CALLER_NUMBER, num)]
       else [(adsi_field_t.CLIP_ABSENCE1, "O")])
    else if t = INT_CID_TYPE_DTMF1 then
      [(adsi_field_t.CLIP_DTMF_C_TERMINATED, "")] ++
      (if valid_cid then [(adsi_field_t.CLIP_DTMF_C_CALLER_NUMBER, num)]
       else [(adsi_field_t.CLIP_DTMF_C_ABSENCE, "10")])
    else if t = INT_CID_TYPE_DTMF2 then
      [(adsi_field_t.CLIP_DTMF_HASH_TERMINATED, "")] ++
      (if valid_cid then [(adsi_field_t.CLIP_DTMF_HASH_CALLER_NUMBER, num)]
       else [(adsi_field_t.CLIP_DTMF_HASH_ABSENCE, "1")])
    else if t = INT_CID_TYPE_DTMF3 then
      (if valid_cid then
        [(adsi_field_t.CLIP_DTMF_C_TERMINATED, ""),
         (adsi_field_t.CLIP_DTMF_C_REDIRECT_NUMBER, num)]
       else [])
    else if t = INT_CID_TYPE_DTMF4 then
      (if valid_cid then
        [(adsi_field_t.CLIP_DTMF_HASH_TERMINATED, ""),
         (adsi_field_t.CLIP_DTMF_HASH_UNSPECIFIED, num)]
       else [])
    else if t = INT_CID_TYPE_JCLIP then
      [(adsi_field_t.JCLIP_MDMF_CALLERID, "")] ++
      (if valid_cid then [(adsi_field_t.JCLIP_DIALED_NUMBER, num)]
       else [(adsi_field_t.JCLIP_ABSENCE, "O")])
    else if t = INT_CID_TYPE_ACLIP then
      [(adsi_field_t.ACLIP_MDMF_CALLERID, ""), (adsi_field_t.ACLIP_DATETIME, time)] ++
      (if valid_cid then [(adsi_field_t.ACLIP_CALLER_NUMBER, num)]
       else [(adsi_field_t.ACLIP_NUMBER_ABSENCE, "O")])
    else
      (if valid_cid then
        [(adsi_field_t.CLASS_SDMF_CALLERID, ""), (adsi_field_t.SDMF_FIELD0, time),
         (adsi_field_t.SDMF_FIELD0, num)]
       else
        [(adsi_field_t.CLASS_MDMF_CALLERID, ""), (adsi_field_t.MCLASS_DATETIME, time),
         (adsi_field_t.MCLASS_ABSENCE1, "O")])
  { dt_as := dt_as
  , preamble_bits := preamble
  , message := if fields.isEmpty then none else some fields }

/-- The absence field and reason code each standard substitutes when no
caller number is available (statement vocabulary for C2). -/
def cidAbsenceEntry (t : Nat) : adsi_field_t × String :=
  if t = INT_CID_TYPE_ETSI_FSK ∨ t = INT_CID_TYPE_SIN227 then (adsi_field_t.CLIP_ABSENCE1, "O")
  else if t = INT_CID_TYPE_DTMF1 then (adsi_field_t.CLIP_DTMF_C_ABSENCE, "10")
  else if t = INT_CID_TYPE_DTMF2 then (adsi_field_t.CLIP_DTMF_HASH_ABSENCE, "1")
  else if t = INT_CID_TYPE_JCLIP then (adsi_field_t.JCLIP_ABSENCE, "O")
  else if t = INT_CID_TYPE_ACLIP then (adsi_field_t.ACLIP_NUMBER_ABSENCE, "O")
  else (adsi_field_t.MCLASS_ABSENCE1, "O")

/-- The caller-number field of each standard (statement vocabulary for
C2). -/
def cidNumberField (t : Nat) : adsi_field_t :=
  if t = INT_CID_TYPE_ETSI_FSK ∨ t = INT_CID_TYPE_SIN227 then adsi_field_t.CLIP_CALLER_NUMBER
  else if t = INT_CID_TYPE_DTMF1 then adsi_field_t.CLIP_DTMF_C_CALLER_NUMBER
  else if t = INT_CID_TYPE_DTMF2 then adsi_field_t.CLIP_DTMF_HASH_CALLER_NUMBER
  else if t = INT_CID_TYPE_JCLIP then adsi_field_t.JCLIP_DIALED_NUMBER
  else if t = INT_CID_TYPE_ACLIP then adsi_field_t.ACLIP_CALLER_NUMBER
  else adsi_field_t.SDMF_FIELD0

/-- Caller-ID sequencing states (`pots_cid_stateT`). -/
inductive cid_state_t
  | CID_IDLE
  | CID_RP_AS
  | CID_PRE_MSG_WAIT
  | CID_MSG
  | CID_POST_MSG_WAIT
deriving DecidableEq, Repr

/-- Caller-ID sequencing variables of pots_task.c. -/
structure cid_sm_t where
  cid_state : cid_state_t
  wait_count : Int
  trigger_cid : Bool
  trigger_pots_ring : Bool
  trigger_cid_ring : Bool
deriving DecidableEq, Repr

/-- Side effects of one `_potsEvalCID` evaluation: entering the
`TONE_CID` tone state and driving the line-reversal GPIO. -/
structure cid_effects_t where
  set_tone_cid : Bool
  line_reverse : Option Bool
deriving DecidableEq, Repr

/-- No side effect. -/
def noCidEffects : cid_effects_t := { set_tone_cid := false, line_reverse := none }

/-- Embedding of `_potsEvalCID` (pots_task.c 755-862).  Inputs:
`potsIsOnHook` is `pots_state == ON_HOOK`, `ringIdle` is
`pots_ring_state == RING_IDLE`, `toneIsCid` is
`pots_tone_state == TONE_CID`. -/
def potsEvalCID (ci : cid_info_t) (num time : String)
    (potsIsOnHook ringIdle toneIsCid : Bool) (s0 : cid_sm_t) : cid_sm_t × cid_effects_t :=
  let pre :=
    if !potsIsOnHook then
      let s1 := { s0 with trigger_cid := false }
      if s1.cid_state ≠ cid_state_t.CID_IDLE then
        ({ s1 with cid_state := cid_state_t.CID_IDLE },
         { noCidEffects with line_reverse := some false })
      else (s1, noCidEffects)
    else (s0, noCidEffects)
  let s := pre.1
  let eff := pre.2
  match s.cid_state with
  | cid_state_t.CID_IDLE =>
    if potsIsOnHook && s.trigger_cid then
      let s := { s with trigger_cid := false }
      if ((potsSetupCID ci.cid_spec num time).message).isSome then
        if ci.cid_spec &&& INT_CID_FLAG_BEFORE_RING ≠ 0 then
          if ci.cid_spec &&& INT_CID_FLAG_EN_LR ≠ 0 then
            ({ s with wait_count := ((ci.pre_msec / POTS_EVAL_MSEC : Nat) : Int)
                    , cid_state := cid_state_t.CID_PRE_MSG_WAIT },
             { eff with line_reverse := some true })
          else if ci.cid_spec &&& INT_CID_FLAG_EN_RP_AS ≠ 0 then
            ({ s with trigger_cid_ring := true, cid_state := cid_state_t.CID_RP_AS }, eff)
          else
            ({ s with cid_state := cid_state_t.CID_MSG }, { eff with set_tone_cid := true })
        else
          ({ s with cid_state := cid_state_t.CID_MSG }, { eff with set_tone_cid := true })
      else
        if ci.cid_spec &&& INT_CID_FLAG_BEFORE_RING ≠ 0 then
          ({ s with trigger_pots_ring := true }, eff)
        else (s, eff)
    else (s, eff)
  | cid_state_t.CID_RP_AS =>
    if ringIdle then
      ({ s with wait_count := ((ci.pre_msec / POTS_EVAL_MSEC : Nat) : Int)
              , cid_state := cid_state_t.CID_PRE_MSG_WAIT }, eff)
    else (s, eff)
  | cid_state_t.CID_PRE_MSG_WAIT =>
    let w := s.wait_count - 1
    if w ≤ 0 then
      ({ s with wait_count := w, cid_state := cid_state_t.CID_MSG },
       { eff with set_tone_cid := true })
    else ({ s with wait_count := w }, eff)
  | cid_state_t.CID_MSG =>
    if !toneIsCid then
      ({ s with wait_count := ((ci.post_msec / POTS_EVAL_MSEC : Nat) : Int)
              , cid_state := cid_state_t.CID_POST_MSG_WAIT }, eff)
    else (s, eff)
  | cid_state_t.CID_POST_MSG_WAIT =>
    let w := s.wait_count - 1
    if w ≤ 0 then
      let eff2 := if ci.cid_spec &&& INT_CID_FLAG_EN_LR ≠ 0 then
                    { eff with line_reverse := some false } else eff
      let s2 := if ci.cid_spec &&& INT_CID_FLAG_BEFORE_RING ≠ 0 then
                  { s with trigger_pots_ring := true } else s
      ({ s2 with wait_count := w, cid_state := cid_state_t.CID_IDLE }, eff2)
    else ({ s with wait_count := w }, eff)


/-- C6: whenever a Caller-ID message is prepared, the preamble override
passed to the encoder matches the standard: 156 mark bits for Bellcore
FSK, 180 mark bits for any other standard (in particular the ETSI
family) whose profile does not set the short-preamble flag, and no
override (the encoder default) for non-Bellcore profiles that do set
the short-preamble flag. -/
theorem cid_preamble_matches_standard (spec : Nat) (num time : String) :
    (spec &&& INT_CID_TYPE_MASK = INT_CID_TYPE_BELLCORE_FSK →
       (potsSetupCID spec num time).preamble_bits = some 156) ∧
    ((spec &&& INT_CID_TYPE_MASK = INT_CID_TYPE_ETSI_FSK ∨
      spec &&& INT_CID_TYPE_MASK = INT_CID_TYPE_SIN227) →
      (spec &&& INT_CID_FLAG_EN_SHORT_PRE = 0 →
        (potsSetupCID spec num time).preamble_bits = some 180) ∧
      (spec &&& INT_CID_FLAG_EN_SHORT_PRE ≠ 0 →
        (potsSetupCID spec num time).preamble_bits = none)) := by
  refine ⟨?_, ?_⟩
  · intro h
    simp [potsSetupCID, h]
  · intro h
    have hne : ¬ (spec &&& INT_CID_TYPE_MASK = INT_CID_TYPE_BELLCORE_FSK) := by
      rcases h with h | h <;> rw [h] <;> decide
    constructor
    · intro hs
      simp [potsSetupCID, hne, hs]
    · intro hs
      simp [potsSetupCID, hne, hs]

/-- Witness for C6 at the United States profile (Bellcore, 156), the
Europe profile (ETSI FSK without short preamble, 180) and a
hypothetical ETSI profile with the short-preamble flag (encoder
default kept). -/
theorem cid_preamble_matches_standard_witness :
    (country_united_states.cid.cid_spec &&& INT_CID_TYPE_MASK = INT_CID_TYPE_BELLCORE_FSK ∧
     (potsSetupCID country_united_states.cid.cid_spec "5551212" "10111200").preamble_bits =
       some 156) ∧
    (country_europe.cid.cid_spec &&& INT_CID_TYPE_MASK = INT_CID_TYPE_ETSI_FSK ∧
     country_europe.cid.cid_spec &&& INT_CID_FLAG_EN_SHORT_PRE = 0 ∧
     (potsSetupCID country_europe.cid.cid_spec "5551212" "10111200").preamble_bits =
       some 180) ∧
    ((INT_CID_TYPE_ETSI_FSK + INT_CID_FLAG_EN_SHORT_PRE) &&& INT_CID_FLAG_EN_SHORT_PRE ≠ 0 ∧
     (potsSetupCID (INT_CID_TYPE_ETSI_FSK + INT_CID_FLAG_EN_SHORT_PRE) "5551212"
        "10111200").preamble_bits = none) :=
  ⟨⟨by decide,
    (cid_preamble_matches_standard country_united_states.cid.cid_spec "5551212"
       "10111200").1 (by decide)⟩,
   ⟨by decide, by decide,
    ((cid_preamble_matches_standard country_europe.cid.cid_spec "5551212"
        "10111200").2 (Or.inl (by decide))).1 (by decide)⟩,
   ⟨by decide,
    ((cid_preamble_matches_standard (INT_CID_TYPE_ETSI_FSK + INT_CID_FLAG_EN_SHORT_PRE)
        "5551212" "10111200").2 (Or.inl (by decide))).2 (by decide)⟩⟩

/-- C2: with no caller number available (empty number string), the
DTMF3/DTMF4 standards build no message at all (`_potsSetupCID` reports
failure); every other enabled standard still builds its message, with
the absence reason code of the standard in place of the caller number
field;
and when setup fails for a before-ring standard, `_potsEvalCID`
triggers the normal ring it had displaced, so ringing is never blocked
by a missing number. -/
theorem cid_absence_substitution (spec : Nat) (time : String) :
    ((spec &&& INT_CID_TYPE_MASK = INT_CID_TYPE_DTMF3 ∨
      spec &&& INT_CID_TYPE_MASK = INT_CID_TYPE_DTMF4) →
       (potsSetupCID spec "" time).message = none) ∧
    (1 ≤ spec &&& INT_CID_TYPE_MASK → spec &&& INT_CID_TYPE_MASK ≤ 9 →
     spec &&& INT_CID_TYPE_MASK ≠ INT_CID_TYPE_DTMF3 →
     spec &&& INT_CID_TYPE_MASK ≠ INT_CID_TYPE_DTMF4 →
       ∃ fs, (potsSetupCID spec "" time).message = some fs ∧
         cidAbsenceEntry (spec &&& INT_CID_TYPE_MASK) ∈ fs ∧
         cidNumberField (spec &&& INT_CID_TYPE_MASK) ∉ fs.map Prod.fst) ∧
    (∀ (ci : cid_info_t) (s : cid_sm_t), ci.cid_spec = spec →
       s.cid_state = cid_state_t.CID_IDLE → s.trigger_cid = true →
       (potsSetupCID spec "" time).message = none →
       spec &&& INT_CID_FLAG_BEFORE_RING ≠ 0 →
       (potsEvalCID ci "" time true true false s).1.trigger_pots_ring = true ∧
       (potsEvalCID ci "" time true true false s).1.cid_state = cid_state_t.CID_IDLE) := by
  refine ⟨?_, ?_, ?_⟩
  · rintro (h | h) <;>
      simp [potsSetupCID, h, INT_CID_TYPE_ETSI_FSK, INT_CID_TYPE_SIN227,
            INT_CID_TYPE_DTMF1, INT_CID_TYPE_DTMF2, INT_CID_TYPE_DTMF3,
            INT_CID_TYPE_DTMF4, INT_CID_TYPE_JCLIP, INT_CID_TYPE_ACLIP]
  · intro h1 h9 hn6 hn7
    obtain ⟨T, hT⟩ : ∃ T, spec &&& INT_CID_TYPE_MASK = T := ⟨_, rfl⟩
    rw [hT] at h1 h9 hn6 hn7 ⊢
    have hle : T ≤ 15 := by
      rw [← hT]
      have := Nat.and_le_right (n := spec) (m := 15)
      simpa [INT_CID_TYPE_MASK] using this
    interval_cases T <;>
      simp_all [potsSetupCID, cidAbsenceEntry, cidNumberField,
                INT_CID_TYPE_BELLCORE_FSK, INT_CID_TYPE_ETSI_FSK, INT_CID_TYPE_SIN227,
                INT_CID_TYPE_DTMF1, INT_CID_TYPE_DTMF2, INT_CID_TYPE_DTMF3,
                INT_CID_TYPE_DTMF4, INT_CID_TYPE_JCLIP, INT_CID_TYPE_ACLIP]
  · intro ci s hspec hst htr hfail hbr
    subst hspec
    unfold potsEvalCID
    simp [hst, htr, hfail, hbr]

/-- A hypothetical DTMF3 before-ring profile (the shipped table has no
DTMF3 country; Taiwan and Kuwait use this variant) for the C2
witness. -/
def cidDtmf3Spec : Nat := INT_CID_TYPE_DTMF3 + INT_CID_FLAG_BEFORE_RING

/-- An idle Caller-ID state machine with a pending trigger, for the C2
witness. -/
def cidIdleTriggered : cid_sm_t :=
  { cid_state := cid_state_t.CID_IDLE, wait_count := 0, trigger_cid := true
  , trigger_pots_ring := false, trigger_cid_ring := false }

/-- Witness for C2: a DTMF3 before-ring profile with a blocked number
builds no message and the evaluation re-triggers the normal ring; the
UK (SIN227) profile with a blocked number still builds a message with
the absence code and no caller-number field. -/
theorem cid_absence_substitution_witness :
    ((potsSetupCID cidDtmf3Spec "" "10111200").message = none) ∧
    (∃ fs, (potsSetupCID country_united_kingdom.cid.cid_spec "" "10111200").message = some fs ∧
       cidAbsenceEntry (country_united_kingdom.cid.cid_spec &&& INT_CID_TYPE_MASK) ∈ fs ∧
       cidNumberField (country_united_kingdom.cid.cid_spec &&& INT_CID_TYPE_MASK) ∉
         fs.map Prod.fst) ∧
    ((potsEvalCID ⟨cidDtmf3Spec, 0, 200, 0⟩ "" "10111200" true true false
        cidIdleTriggered).1.trigger_pots_ring = true ∧
     (potsEvalCID ⟨cidDtmf3Spec, 0, 200, 0⟩ "" "10111200" true true false
        cidIdleTriggered).1.cid_state = cid_state_t.CID_IDLE) :=
  ⟨(cid_absence_substitution cidDtmf3Spec "10111200").1 (Or.inl (by decide)),
   (cid_absence_substitution country_united_kingdom.cid.cid_spec "10111200").2.1
     (by decide) (by decide) (by decide) (by decide),
   (cid_absence_substitution cidDtmf3Spec "10111200").2.2 ⟨cidDtmf3Spec, 0, 200, 0⟩
     cidIdleTriggered rfl rfl rfl (by decide) (by decide)⟩

/-! ## Call orchestrator (app_task.c)

`appEvalState` transcribes `_appEvalState` (app_task.c 447-628) as a
function from the task state and the flags visible at one 50 ms
evaluation to the updated state plus the notifications sent to the
other tasks; `appSetState` transcribes `_appSetState` (631-697),
whose per-target-state actions run immediately when called, so in the
`CALL_ACTIVE` case - where the C code has `} if (` instead of
`} else if (` - two `_appSetState` calls can run in one evaluation and
the second overrides the first, exactly as in the source.  The trailing
blocked-caller GUI hint of the `CALL_RECEIVED` case is also
transcribed.  `potsHandleNotifs` transcribes the flag updates of
`_potsHandleNotifications` (pots_task.c 292-384); the new-country
clause is modelled separately (`potsNewCountryLookup`). -/


/-- app_task evaluation period (ms). -/
def APP_EVAL_MSEC : Nat := 50
/-- Period without ring indications after which an unanswered incoming
call is considered over (ms). -/
def APP_LAST_RING_DETECT_MSEC : Nat := 7000
/-- Period after the last phone-dialed digit before auto-dialing (ms). -/
def APP_LAST_DIGIT_2_DIAL_MSEC : Nat := 4000
/-- `APP_LAST_RING_DETECT_MSEC/APP_EVAL_MSEC` evaluation cycles. -/
def APP_LAST_RING_DETECT_COUNT : Nat := APP_LAST_RING_DETECT_MSEC / APP_EVAL_MSEC
/-- `APP_LAST_DIGIT_2_DIAL_MSEC/APP_EVAL_MSEC` evaluation cycles. -/
def APP_LAST_DIGIT_2_DIAL_COUNT : Nat := APP_LAST_DIGIT_2_DIAL_MSEC / APP_EVAL_MSEC

/-- Orchestrator states (`app_state_t` of app_task.h). -/
inductive app_state_t
  | DISCONNECTED
  | CONNECTED_IDLE
  | CALL_RECEIVED
  | CALL_WAIT_ACTIVE
  | DIALING
  | CALL_INITIATED
  | CALL_ACTIVE
  | CALL_ACTIVE_VOICE
  | CALL_WAIT_END
  | CALL_WAIT_ONHOOK
deriving DecidableEq, Repr

open app_state_t

/-- Notifications `_appSetState`/`_appEvalState` send to the other
tasks (pots, bt, gcore, gui). -/
inductive app_notify_t
  | potsOutOfService
  | potsInService
  | potsDoneRinging
  | btAnswerCall
  | btDialOper
  | btDialNum (num : List Char)
  | btHangupCall
  | gcoreActivity
  | guiPhNumUpdate
  | guiCidNumUpdate
  | guiStatusUpdate
deriving DecidableEq, Repr

/-- app_task variables read or written by `_appEvalState`. -/
structure app_st_t where
  state : app_state_t
  call_received_timer : Nat
  dialing_pots_digit_timer : Nat
  ring_count : Nat
  cid_valid : Bool
  dialing_num : List Char
  last_dial_digit_from_pots : Bool
deriving DecidableEq, Repr

/-- Flags visible to one `_appEvalState` evaluation (set by
`_appHandleNotifications` from coalesced task notifications). -/
structure app_in_t where
  bt_in_service : Bool
  bt_in_call : Bool
  bt_audio_connected : Bool
  pots_off_hook : Bool
  notify_dial_btn_pressed : Bool
  notify_bt_ring_indication : Bool
deriving DecidableEq, Repr

/-- Embedding of `_appSetState`: target-state entry actions, the state
assignment, and the closing GUI status notification. -/
def appSetState (s : app_st_t) (st : app_state_t) : app_st_t × List app_notify_t :=
  match st with
  | DISCONNECTED =>
      ({ s with state := st },
       [app_notify_t.potsOutOfService, app_notify_t.guiStatusUpdate])
  | CONNECTED_IDLE =>
      ({ s with state := st, cid_valid := false, ring_count := 0, dialing_num := [] },
       [app_notify_t.potsInService, app_notify_t.guiPhNumUpdate, app_notify_t.guiStatusUpdate])
  | CALL_RECEIVED =>
      ({ s with state := st, call_received_timer := 0 },
       [app_notify_t.gcoreActivity, app_notify_t.guiStatusUpdate])
  | CALL_WAIT_ACTIVE =>
      ({ s with state := st },
       [app_notify_t.btAnswerCall, app_notify_t.guiStatusUpdate])
  | DIALING =>
      ({ s with state := st, dialing_pots_digit_timer := 0 },
       [app_notify_t.guiStatusUpdate])
  | CALL_INITIATED =>
      ({ s with state := st },
       [(if s.dialing_num = ['0'] then app_notify_t.btDialOper
         else app_notify_t.btDialNum s.dialing_num), app_notify_t.guiStatusUpdate])
  | CALL_ACTIVE =>
      ({ s with state := st }, [app_notify_t.guiStatusUpdate])
  | CALL_ACTIVE_VOICE =>
      ({ s with state := st }, [app_notify_t.guiStatusUpdate])
  | CALL_WAIT_END =>
      ({ s with state := st },
       [app_notify_t.btHangupCall, app_notify_t.guiStatusUpdate])
  | CALL_WAIT_ONHOOK =>
      ({ s with state := st }, [app_notify_t.guiStatusUpdate])

/-- Embedding of `_appEvalState`, one 50 ms evaluation. -/
def appEvalState (s : app_st_t) (i : app_in_t) : app_st_t × List app_notify_t :=
  match s.state with
  | DISCONNECTED =>
      if i.bt_in_service then appSetState s CONNECTED_IDLE else (s, [])
  | CONNECTED_IDLE =>
      if !i.bt_in_service then appSetState s DISCONNECTED
      else if i.notify_bt_ring_indication then appSetState s CALL_RECEIVED
      else if i.pots_off_hook then
        if i.bt_audio_connected then appSetState s CALL_ACTIVE_VOICE
        else appSetState s DIALING
      else (s, [])
  | CALL_RECEIVED =>
      let r :=
        if !i.bt_in_service then appSetState s DISCONNECTED
        else if i.notify_dial_btn_pressed then appSetState s CALL_WAIT_END
        else if i.bt_in_call then
          if i.bt_audio_connected && i.pots_off_hook then appSetState s CALL_ACTIVE_VOICE
          else appSetState s CALL_ACTIVE
        else if i.pots_off_hook then appSetState s CALL_WAIT_ACTIVE
        else if i.notify_bt_ring_indication then appSetState s CALL_RECEIVED
        else
          let s1 := { s with call_received_timer := s.call_received_timer + 1 }
          if s1.call_received_timer ≥ APP_LAST_RING_DETECT_COUNT then
            let r1 := appSetState s1 CONNECTED_IDLE
            (r1.1, r1.2 ++ [app_notify_t.potsDoneRinging])
          else (s1, [])
      if !r.1.cid_valid && r.1.ring_count == 2 then
        (r.1, r.2 ++ [app_notify_t.guiCidNumUpdate])
      else r
  | CALL_WAIT_ACTIVE =>
      if !i.bt_in_service then appSetState s DISCONNECTED
      else if !i.pots_off_hook || i.notify_dial_btn_pressed then appSetState s CALL_WAIT_END
      else if i.bt_in_call then
        if i.bt_audio_connected && i.pots_off_hook then appSetState s CALL_ACTIVE_VOICE
        else appSetState s CALL_ACTIVE
      else (s, [])
  | DIALING =>
      if !i.bt_in_service then appSetState s DISCONNECTED
      else if !i.pots_off_hook then appSetState s CONNECTED_IDLE
      else if i.notify_bt_ring_indication then appSetState s CALL_RECEIVED
      else if i.bt_audio_connected then appSetState s CALL_ACTIVE_VOICE
      else if s.dialing_num.length > 0 then
        let s1 := { s with dialing_pots_digit_timer := s.dialing_pots_digit_timer + 1 }
        if i.notify_dial_btn_pressed ||
           (s1.last_dial_digit_from_pots &&
            s1.dialing_pots_digit_timer ≥ APP_LAST_DIGIT_2_DIAL_COUNT) then
          appSetState s1 CALL_INITIATED
        else (s1, [])
      else (s, [])
  | CALL_INITIATED =>
      if !i.bt_in_service then appSetState s DISCONNECTED
      else if i.bt_in_call then
        if i.bt_audio_connected && i.pots_off_hook then appSetState s CALL_ACTIVE_VOICE
        else appSetState s CALL_ACTIVE
      else if i.notify_dial_btn_pressed || !i.pots_off_hook then appSetState s CALL_WAIT_END
      else (s, [])
  | CALL_ACTIVE =>
      let r1 :=
        if !i.bt_in_service then appSetState s DISCONNECTED
        else if i.notify_dial_btn_pressed then appSetState s CALL_WAIT_END
        else (s, [])
      let r2 :=
        if !i.bt_in_call then
          if i.pots_off_hook then appSetState r1.1 CALL_WAIT_ONHOOK
          else appSetState r1.1 CONNECTED_IDLE
        else if i.bt_audio_connected && i.pots_off_hook then appSetState r1.1 CALL_ACTIVE_VOICE
        else (r1.1, [])
      (r2.1, r1.2 ++ r2.2)
  | CALL_ACTIVE_VOICE =>
      if !i.bt_in_service then appSetState s DISCONNECTED
      else if i.notify_dial_btn_pressed || !i.pots_off_hook then appSetState s CALL_WAIT_END
      else if !i.bt_audio_connected then
        if !i.bt_in_call then appSetState s CALL_WAIT_ONHOOK
        else appSetState s CALL_ACTIVE
      else (s, [])
  | CALL_WAIT_END =>
      if !i.bt_in_service then appSetState s DISCONNECTED
      else if i.bt_audio_connected && i.pots_off_hook then appSetState s CALL_ACTIVE_VOICE
      else if !i.bt_in_call then
        if i.pots_off_hook then appSetState s CALL_WAIT_ONHOOK
        else appSetState s CONNECTED_IDLE
      else (s, [])
  | CALL_WAIT_ONHOOK =>
      if !i.bt_in_service then appSetState s DISCONNECTED
      else if !i.pots_off_hook then appSetState s CONNECTED_IDLE
      else (s, [])

/-- Inputs of an evaluation in which nothing arrives: service up, no
call, no audio, phone on-hook, no button, no ring indication. -/
def quietAppIn : app_in_t :=
  { bt_in_service := true, bt_in_call := false, bt_audio_connected := false
  , pots_off_hook := false, notify_dial_btn_pressed := false
  , notify_bt_ring_indication := false }

/-- Iterating quiet evaluations. -/
def appRunQuiet : Nat → app_st_t → app_st_t
  | 0, s => s
  | n+1, s => (appEvalState (appRunQuiet n s) quietAppIn).1

/-- A quiet evaluation in `CALL_RECEIVED` below the ring timeout only
increments the timer. -/
theorem quiet_step_stay (s : app_st_t) (hst : s.state = CALL_RECEIVED)
    (ht : s.call_received_timer + 1 < APP_LAST_RING_DETECT_COUNT) :
    appEvalState s quietAppIn =
      ({ s with call_received_timer := s.call_received_timer + 1 },
       if !s.cid_valid && s.ring_count == 2 then [app_notify_t.guiCidNumUpdate] else []) := by
  unfold appEvalState
  rw [hst]
  simp only [quietAppIn, APP_LAST_RING_DETECT_COUNT, APP_LAST_RING_DETECT_MSEC,
             APP_EVAL_MSEC] at ht ⊢
  have hcond : ¬ (139 ≤ s.call_received_timer) := by omega
  simp [hcond]
  split <;> rfl

/-- A quiet evaluation in `CALL_RECEIVED` reaching the ring timeout
returns to `CONNECTED_IDLE` and tells pots_task ringing is done. -/
theorem quiet_step_fire (s : app_st_t) (hst : s.state = CALL_RECEIVED)
    (ht : s.call_received_timer + 1 ≥ APP_LAST_RING_DETECT_COUNT) :
    (appEvalState s quietAppIn).1.state = CONNECTED_IDLE ∧
    app_notify_t.potsDoneRinging ∈ (appEvalState s quietAppIn).2 := by
  unfold appEvalState
  rw [hst]
  simp only [quietAppIn, APP_LAST_RING_DETECT_COUNT, APP_LAST_RING_DETECT_MSEC,
             APP_EVAL_MSEC] at ht ⊢
  have hcond : 139 ≤ s.call_received_timer := by omega
  simp [hcond, appSetState]

/-- Up to 139 quiet evaluations stay in `CALL_RECEIVED`, counting. -/
theorem quiet_run_stays (n : Nat) (s : app_st_t) (hst : s.state = CALL_RECEIVED)
    (ht : s.call_received_timer = 0) (hn : n ≤ 139) :
    (appRunQuiet n s).state = CALL_RECEIVED ∧
    (appRunQuiet n s).call_received_timer = n := by
  induction n with
  | zero => exact ⟨hst, ht⟩
  | succ n ih =>
      have prev := ih (by omega)
      have hconst : APP_LAST_RING_DETECT_COUNT = 140 := by decide
      have hlt : (appRunQuiet n s).call_received_timer + 1 < APP_LAST_RING_DETECT_COUNT := by
        rw [hconst, prev.2]
        omega
      show ((appEvalState (appRunQuiet n s) quietAppIn).1.state = CALL_RECEIVED ∧
            (appEvalState (appRunQuiet n s) quietAppIn).1.call_received_timer = n + 1)
      rw [quiet_step_stay (appRunQuiet n s) prev.1 hlt]
      refine ⟨prev.1, ?_⟩
      simp [prev.2]

/-- C3 (amended): with service up, a local hang-up (phone on-hook or
the GUI end-call button) moves `CALL_WAIT_ACTIVE` and
`CALL_ACTIVE_VOICE` - and `CALL_INITIATED` provided the cellular side
has not yet reported the call established - to `CALL_WAIT_END`,
issuing the hang-up command to the cellular state machine; in
`CALL_ACTIVE` only the GUI button does so, and only while cellular
audio is not routed to an off-hook phone does the evaluation end in
`CALL_WAIT_END`; and the orchestrator stays in `CALL_WAIT_END` while
the cellular side still reports a call (audio not routed to an
off-hook phone), so it never returns to idle while a call is still
reported. -/
theorem local_hangup_waits_for_cellular_end (s : app_st_t) (i : app_in_t) (hsvc : i.bt_in_service = true) :
    (s.state = CALL_WAIT_ACTIVE →
       (!i.pots_off_hook || i.notify_dial_btn_pressed) = true →
       (appEvalState s i).1.state = CALL_WAIT_END ∧
       app_notify_t.btHangupCall ∈ (appEvalState s i).2) ∧
    (s.state = CALL_ACTIVE_VOICE →
       (i.notify_dial_btn_pressed || !i.pots_off_hook) = true →
       (appEvalState s i).1.state = CALL_WAIT_END ∧
       app_notify_t.btHangupCall ∈ (appEvalState s i).2) ∧
    (s.state = CALL_INITIATED → i.bt_in_call = false →
       (i.notify_dial_btn_pressed || !i.pots_off_hook) = true →
       (appEvalState s i).1.state = CALL_WAIT_END ∧
       app_notify_t.btHangupCall ∈ (appEvalState s i).2) ∧
    (s.state = CALL_ACTIVE → i.notify_dial_btn_pressed = true → i.bt_in_call = true →
       (i.bt_audio_connected && i.pots_off_hook) = false →
       (appEvalState s i).1.state = CALL_WAIT_END ∧
       app_notify_t.btHangupCall ∈ (appEvalState s i).2) ∧
    (s.state = CALL_WAIT_END → i.bt_in_call = true →
       (i.bt_audio_connected && i.pots_off_hook) = false →
       (appEvalState s i).1.state = CALL_WAIT_END) := by
  refine ⟨?_, ?_, ?_, ?_, ?_⟩
  · intro hst hcnd
    simp [appEvalState, appSetState, hst, hsvc, hcnd]
  · intro hst hcnd
    simp [appEvalState, appSetState, hst, hsvc, hcnd]
  · intro hst hcall hcnd
    simp [appEvalState, appSetState, hst, hsvc, hcall, hcnd]
  · intro hst hbtn hcall hna
    simp [appEvalState, appSetState, hst, hsvc, hbtn, hcall, hna]
  · intro hst hcall hna
    simp [appEvalState, appSetState, hst, hsvc, hcall, hna]

/-- Orchestrator in `CALL_ACTIVE` (call conducted without audio routed
here). -/
def c3CexState : app_st_t :=
  { state := CALL_ACTIVE, call_received_timer := 0, dialing_pots_digit_timer := 0
  , ring_count := 0, cid_valid := false, dialing_num := ['5']
  , last_dial_digit_from_pots := true }

/-- Evaluation inputs: service up, call up, phone just went on-hook, no
GUI button. -/
def c3CexIn : app_in_t :=
  { bt_in_service := true, bt_in_call := true, bt_audio_connected := false
  , pots_off_hook := false, notify_dial_btn_pressed := false
  , notify_bt_ring_indication := false }

/-- Counterexample for C3: in `CALL_ACTIVE` the phone going on-hook is
ignored - the orchestrator stays in `CALL_ACTIVE` and issues no
hang-up command to the cellular side, contradicting the claim that a
local hang-up from every in-call state (including call-active) issues
a hang-up command and enters the wait-for-end state. -/
theorem onhook_in_call_active_ignored :
    (appEvalState c3CexState c3CexIn).1.state = CALL_ACTIVE ∧
    app_notify_t.btHangupCall ∉ (appEvalState c3CexState c3CexIn).2 := by
  decide

/-- pots_task.h notification masks. -/
def POTS_NOTIFY_IN_SERVICE_MASK : Nat := 0x00000001
def POTS_NOTIFY_OUT_OF_SERVICE_MASK : Nat := 0x00000002
def POTS_NOTIFY_AUDIO_8K_MASK : Nat := 0x00000010
def POTS_NOTIFY_AUDIO_16K_MASK : Nat := 0x00000020
def POTS_NOTIFY_AUDIO_DIS_MASK : Nat := 0x00000040
def POTS_NOTIFY_MUTE_RING_MASK : Nat := 0x00000100
def POTS_NOTIFY_UNMUTE_RING_MASK : Nat := 0x00000200
def POTS_NOTIFY_RING_MASK : Nat := 0x00000400
def POTS_NOTIFY_DONE_RINGING_MASK : Nat := 0x00000800
def POTS_NOTIFY_EXT_DIAL_DIGIT_MASK : Nat := 0x00001000
def POTS_NOTIFY_NEW_COUNTRY_MASK : Nat := 0x00010000

/-- The `Notification(var, mask)` decode macro of sys_common.h. -/
def Notification (v m : Nat) : Bool := (v &&& m) == m

/-- pots_task variables written by `_potsHandleNotifications`. -/
structure pots_flags_t where
  pots_in_service : Bool
  pots_has_call_audio : Bool
  pots_call_audio_16k : Bool
  pots_do_not_disturb : Bool
  pots_trigger_cid : Bool
  pots_trigger_pots_ring : Bool
  pots_ring_num : Nat
  pots_notify_ext_digit_dialed : Bool
deriving DecidableEq, Repr

/-- Service availability clauses. -/
def potsNotifServiceUpd (v : Nat) (s : pots_flags_t) : pots_flags_t :=
  let s := if Notification v POTS_NOTIFY_IN_SERVICE_MASK then
             { s with pots_in_service := true } else s
  if Notification v POTS_NOTIFY_OUT_OF_SERVICE_MASK then
    { s with pots_in_service := false } else s

/-- Call audio clauses. -/
def potsNotifAudioUpd (v : Nat) (s : pots_flags_t) : pots_flags_t :=
  let s := if Notification v POTS_NOTIFY_AUDIO_8K_MASK then
             { s with pots_has_call_audio := true } else s
  let s := if Notification v POTS_NOTIFY_AUDIO_16K_MASK then
             { s with pots_has_call_audio := true, pots_call_audio_16k := true } else s
  if Notification v POTS_NOTIFY_AUDIO_DIS_MASK then
    { s with pots_has_call_audio := false, pots_call_audio_16k := false } else s

/-- Ring mute clauses. -/
def potsNotifMuteUpd (v : Nat) (s : pots_flags_t) : pots_flags_t :=
  let s := if Notification v POTS_NOTIFY_MUTE_RING_MASK then
             { s with pots_do_not_disturb := true } else s
  if Notification v POTS_NOTIFY_UNMUTE_RING_MASK then
    { s with pots_do_not_disturb := false } else s

/-- Ring clause: first ring of a call with a before-ring Caller-ID
standard triggers CID instead of a ring. -/
def potsNotifRingUpd (cid_spec v : Nat) (s : pots_flags_t) : pots_flags_t :=
  if Notification v POTS_NOTIFY_RING_MASK then
    (if !s.pots_do_not_disturb then
       (if s.pots_ring_num = 0 ∧ cid_spec &&& INT_CID_TYPE_MASK ≠ 0 ∧
           cid_spec &&& INT_CID_FLAG_BEFORE_RING ≠ 0 then
          { s with pots_trigger_cid := true }
        else { s with pots_trigger_pots_ring := true })
     else s)
  else s

/-- Done-ringing clause: reset the ring counter. -/
def potsNotifDoneRingingUpd (v : Nat) (s : pots_flags_t) : pots_flags_t :=
  if Notification v POTS_NOTIFY_DONE_RINGING_MASK then
    { s with pots_ring_num := 0 } else s

/-- External dialed digit clause. -/
def potsNotifExtDigitUpd (v : Nat) (s : pots_flags_t) : pots_flags_t :=
  if Notification v POTS_NOTIFY_EXT_DIAL_DIGIT_MASK then
    { s with pots_notify_ext_digit_dialed := true } else s

/-- Embedding of the flag updates of `_potsHandleNotifications`, in
source order. -/
def potsHandleNotifs (cid_spec : Nat) (v : Nat) (s : pots_flags_t) : pots_flags_t :=
  potsNotifExtDigitUpd v
    (potsNotifDoneRingingUpd v
      (potsNotifRingUpd cid_spec v
        (potsNotifMuteUpd v
          (potsNotifAudioUpd v
            (potsNotifServiceUpd v s)))))

theorem done_ringing_resets_ring_num (spec v : Nat) (s : pots_flags_t)
    (h : Notification v POTS_NOTIFY_DONE_RINGING_MASK = true) :
    (potsHandleNotifs spec v s).pots_ring_num = 0 := by
  unfold potsHandleNotifs potsNotifExtDigitUpd potsNotifDoneRingingUpd
  rw [h]
  split <;> rfl

/-- Orchestrator in a voice call, used as the C3 witness input. -/
def c3WitState : app_st_t :=
  { state := CALL_ACTIVE_VOICE, call_received_timer := 0, dialing_pots_digit_timer := 0
  , ring_count := 0, cid_valid := true, dialing_num := []
  , last_dial_digit_from_pots := false }

/-- Evaluation inputs for the C3 witness: service and call up, audio
routed here, phone just went on-hook. -/
def c3WitIn : app_in_t :=
  { bt_in_service := true, bt_in_call := true, bt_audio_connected := true
  , pots_off_hook := false, notify_dial_btn_pressed := false
  , notify_bt_ring_indication := false }

/-- Witness for C3 (amended): hanging up the phone during a voice call
moves to `CALL_WAIT_END` and issues the hang-up command, and from
`CALL_WAIT_END` with the call still reported the orchestrator stays
put. -/
theorem local_hangup_waits_for_cellular_end_witness :
    c3WitIn.bt_in_service = true ∧ c3WitState.state = CALL_ACTIVE_VOICE ∧
    (c3WitIn.notify_dial_btn_pressed || !c3WitIn.pots_off_hook) = true ∧
    ((appEvalState c3WitState c3WitIn).1.state = CALL_WAIT_END ∧
     app_notify_t.btHangupCall ∈ (appEvalState c3WitState c3WitIn).2) ∧
    ({ c3WitState with state := CALL_WAIT_END } : app_st_t).state = CALL_WAIT_END ∧
    (c3WitIn.bt_in_call = true ∧
     ({ c3WitIn with bt_audio_connected := false } : app_in_t).bt_audio_connected = false ∧
     (appEvalState { c3WitState with state := CALL_WAIT_END }
        { c3WitIn with bt_audio_connected := false }).1.state = CALL_WAIT_END) :=
  ⟨rfl, rfl, by decide,
   (local_hangup_waits_for_cellular_end c3WitState c3WitIn rfl).2.1 rfl (by decide),
   rfl,
   rfl, rfl,
   (local_hangup_waits_for_cellular_end { c3WitState with state := CALL_WAIT_END }
      { c3WitIn with bt_audio_connected := false } rfl).2.2.2.2 rfl rfl (by decide)⟩

set_option maxRecDepth 4000 in
/-- C4: the ring timeout of the orchestrator is 7000 ms = 140 evaluation
cycles of 50 ms; from `CALL_RECEIVED` with the timer fresh, 139 quiet
evaluations (no ring indication, no off-hook, no call established)
stay in `CALL_RECEIVED` counting up, the 140th returns to
`CONNECTED_IDLE` and sends pots_task the done-ringing notification,
and handling that notification resets `pots_ring_num` to 0. -/
theorem call_received_ring_timeout :
    APP_LAST_RING_DETECT_MSEC = 7000 ∧ APP_EVAL_MSEC = 50 ∧
    APP_LAST_RING_DETECT_COUNT = 140 ∧
    (∀ s : app_st_t, s.state = CALL_RECEIVED → s.call_received_timer = 0 →
      (∀ n, n ≤ 139 → (appRunQuiet n s).state = CALL_RECEIVED ∧
            (appRunQuiet n s).call_received_timer = n) ∧
      (appRunQuiet 140 s).state = CONNECTED_IDLE ∧
      app_notify_t.potsDoneRinging ∈ (appEvalState (appRunQuiet 139 s) quietAppIn).2) ∧
    (∀ (spec v : Nat) (f : pots_flags_t),
      Notification v POTS_NOTIFY_DONE_RINGING_MASK = true →
      (potsHandleNotifs spec v f).pots_ring_num = 0) := by
  refine ⟨by decide, by decide, by decide, ?_, done_ringing_resets_ring_num⟩
  intro s hst ht
  have h139 := quiet_run_stays 139 s hst ht (by omega)
  have hfire := quiet_step_fire (appRunQuiet 139 s) h139.1
    (by rw [h139.2]
        simp only [APP_LAST_RING_DETECT_COUNT, APP_LAST_RING_DETECT_MSEC, APP_EVAL_MSEC]
        omega)
  exact ⟨fun n hn => quiet_run_stays n s hst ht hn, hfire.1, hfire.2⟩

/-- Fresh `CALL_RECEIVED` state for the C4 witness. -/
def c4Start : app_st_t :=
  { state := CALL_RECEIVED, call_received_timer := 0, dialing_pots_digit_timer := 0
  , ring_count := 1, cid_valid := false, dialing_num := []
  , last_dial_digit_from_pots := false }

/-- pots_task flags mid-ring for the C4 witness. -/
def c4PotsFlags : pots_flags_t :=
  { pots_in_service := true, pots_has_call_audio := false, pots_call_audio_16k := false
  , pots_do_not_disturb := false, pots_trigger_cid := false
  , pots_trigger_pots_ring := false, pots_ring_num := 2
  , pots_notify_ext_digit_dialed := false }

/-- Witness for C4 at a fresh `CALL_RECEIVED` state and a ring counter
of 2. -/
theorem call_received_ring_timeout_witness :
    (c4Start.state = CALL_RECEIVED ∧ c4Start.call_received_timer = 0) ∧
    ((∀ n, n ≤ 139 → (appRunQuiet n c4Start).state = CALL_RECEIVED ∧
          (appRunQuiet n c4Start).call_received_timer = n) ∧
     (appRunQuiet 140 c4Start).state = CONNECTED_IDLE ∧
     app_notify_t.potsDoneRinging ∈ (appEvalState (appRunQuiet 139 c4Start) quietAppIn).2) ∧
    (Notification POTS_NOTIFY_DONE_RINGING_MASK POTS_NOTIFY_DONE_RINGING_MASK = true ∧
     (potsHandleNotifs country_united_states.cid.cid_spec POTS_NOTIFY_DONE_RINGING_MASK
        c4PotsFlags).pots_ring_num = 0) :=
  ⟨⟨rfl, rfl⟩,
   call_received_ring_timeout.2.2.2.1 c4Start rfl rfl,
   by decide,
   call_received_ring_timeout.2.2.2.2 country_united_states.cid.cid_spec
     POTS_NOTIFY_DONE_RINGING_MASK c4PotsFlags (by decide)⟩
